import Mathlib

/-!
Shallow embedding of `config.go` from the tagpr repository: the layered
configuration resolver (`config`, `configValue`, `Reload`, `set`,
`initializeFile`, the setters and the accessors).

External effects are made explicit:
* `os.Getenv` becomes a function `e : String → String` (it never fails;
  an unset variable reads as `""`, exactly as in Go).
* `gitconfig.Get` becomes `g : String → Option String` (`none` models the
  error / missing-key outcome, which `Reload` silently tolerates).
* `gitconfig.Bool` becomes `gb : String → Option Bool`.
* The Go method `Reload` mutates its receiver and returns an error; here it
  returns the updated record together with `Option ConfigErr`
  (`none` = nil error).
* The write path (`set`, `initializeFile`, `gitconfig.Do`, `os.RemoveAll`,
  `os.WriteFile`) acts on an explicit filesystem state `FS` with a fault
  model that says which primitive calls fail; each primitive also emits a
  trace event so that "how many writes happened" is observable.
-/

/-- The constant names from the `const` block of config.go. -/
def defaultConfigFile : String := ".tagpr"

/-- The default config-file content written by `initializeFile`
(the Go raw string literal `defaultConfigContent`). -/
def defaultConfigContent : String := String.intercalate "\n" [
  "# config file for the tagpr in git config format",
  "# The tagpr generates the initial configuration, which you can rewrite to suit your environment.",
  "# CONFIGURATIONS:",
  "#   tagpr.releaseBranch",
  "#       Generally, it is \"main.\" It is the branch for releases. The pcpr tracks this branch,",
  "#       creates or updates a pull request as a release candidate, or tags when they are merged.",
  "#",
  "#   tagpr.versionFile",
  "#       Versioning file containing the semantic version needed to be updated at release.",
  "#       It will be synchronized with the \"git tag\".",
  "#       Often this is a meta-information file such as gemspec, setup.cfg, package.json, etc.",
  "#       Sometimes the source code file, such as version.go or Bar.pm, is used.",
  "#       If you do not want to use versioning files but only git tags, specify the \"-\" string here.",
  "#       You can specify multiple version files by comma separated strings.",
  "#",
  "#   tagpr.vPrefix",
  "#       Flag whether or not v-prefix is added to semver when git tagging. (e.g. v1.2.3 if true)",
  "#       This is only a tagging convention, not how it is described in the version file.",
  "#",
  "#   tagpr.command (Optional)",
  "#       Command to change files just before release.",
  "#",
  "#   tagpr.tmplate (Optional)",
  "#       Pull request template in go template format",
  "[tagpr]",
  ""]

def envReleaseBranch : String := "TAGPR_RELEASE_BRANCH"

def envVersionFile : String := "TAGPR_VERSION_FILE"

def envVPrefix : String := "TAGPR_VPREFIX"

def envCommand : String := "TAGPR_COMMAND"

def envTemplate : String := "TAGPR_TEMPLATE"

def configReleaseBranch : String := "tagpr.releaseBranch"

def configVersionFile : String := "tagpr.versionFile"

def configVPrefix : String := "tagpr.vPrefix"

def configCommand : String := "tagpr.command"

def configTemplate : String := "tagpr.template"

/-- `type configSource int` with its three constants. -/
inductive configSource : Type
  | srcEnv
  | srcConfigFile
  | srcDetect
deriving DecidableEq, Repr

/-- `type configValue struct { value string; source configSource }`. -/
structure configValue : Type where
  value : String
  source : configSource
deriving DecidableEq, Repr

/-- `func (cv *configValue) String() string`. -/
def configValue.String (cv : configValue) : String :=
  if cv.value = "-" then "" else cv.value

/-- `func (cv *configValue) Empty() bool`. -/
def configValue.Empty (cv : configValue) : Bool :=
  cv.String = ""

/-- The five nullable fields of `type config struct` (a `nil` pointer is
`none`; `conf` and the store handle are factored out as explicit inputs). -/
structure config : Type where
  releaseBranch : Option configValue
  versionFile : Option configValue
  command : Option configValue
  template : Option configValue
  vPrefix : Option Bool
deriving DecidableEq, Repr

/-- The errors the embedded code can produce. -/
inductive ConfigErr : Type
  | invalidEnvironmentValue
  | removeErr
  | writeErr
  | doErr
deriving DecidableEq, Repr

/-- `strconv.ParseBool`: accepts 1, t, T, TRUE, true, True, 0, f, F,
FALSE, false, False; anything else is an error (`none`). -/
def parseBool (s : String) : Option Bool :=
  if s = "1" ∨ s = "t" ∨ s = "T" ∨ s = "TRUE" ∨ s = "true" ∨ s = "True" then
    some true
  else if s = "0" ∨ s = "f" ∨ s = "F" ∨ s = "FALSE" ∨ s = "false" ∨ s = "False" then
    some false
  else none

/-- `strconv.FormatBool`. -/
def FormatBool (b : Bool) : String :=
  if b then "true" else "false"

/-- One `if env != "" { env wins } else { store; on error keep old }` block of
`Reload` for a string-valued setting. -/
def resolveValue (envVal : String) (storeVal : Option String) (old : Option configValue) :
    Option configValue :=
  if envVal ≠ "" then some ⟨envVal, .srcEnv⟩
  else
    match storeVal with
    | some out => some ⟨out, .srcConfigFile⟩
    | none => old

/-- The `vPrefix` block of `Reload`: a non-empty environment value must
parse with `strconv.ParseBool` (a parse error aborts the reload); otherwise
`gitconfig.Bool` is consulted and an error there keeps the old field. -/
def reloadVPrefix (envVal : String) (storeVal : Option Bool) (old : Option Bool) :
    Except ConfigErr (Option Bool) :=
  if envVal ≠ "" then
    match parseBool envVal with
    | none => .error .invalidEnvironmentValue
    | some b => .ok (some b)
  else
    match storeVal with
    | some b => .ok (some b)
    | none => .ok old

/-- `func (cfg *config) Reload() error`.  `e` is `os.Getenv`, `g` is
`cfg.gitconfig.Get` (`none` = error), `gb` is `cfg.gitconfig.Bool`.
The result is the mutated receiver paired with the returned error
(`none` = nil).  The five blocks run in source order; a `ParseBool`
failure returns before the command/template blocks run. -/
def Reload (e : String → String) (g : String → Option String)
    (gb : String → Option Bool) (cfg : config) : config × Option ConfigErr :=
  let cfg1 := { cfg with
    releaseBranch := resolveValue (e envReleaseBranch) (g configReleaseBranch) cfg.releaseBranch }
  let cfg2 := { cfg1 with
    versionFile := resolveValue (e envVersionFile) (g configVersionFile) cfg1.versionFile }
  match reloadVPrefix (e envVPrefix) (gb configVPrefix) cfg2.vPrefix with
  | .error err => (cfg2, some err)
  | .ok vp =>
    let cfg3 := { cfg2 with vPrefix := vp }
    let cfg4 := { cfg3 with
      command := resolveValue (e envCommand) (g configCommand) cfg3.command }
    ({ cfg4 with
      template := resolveValue (e envTemplate) (g configTemplate) cfg4.template }, none)

/-- Pure accessor `func (cfg *config) ReleaseBranch() *configValue`. -/
def config.ReleaseBranch (cfg : config) : Option configValue :=
  cfg.releaseBranch

/-- Pure accessor `func (cfg *config) VersionFile() *configValue`. -/
def config.VersionFile (cfg : config) : Option configValue :=
  cfg.versionFile

/-- Pure accessor `func (cfg *config) Command() *configValue`. -/
def config.Command (cfg : config) : Option configValue :=
  cfg.command

/-- Pure accessor `func (cfg *config) Template() *configValue`. -/
def config.Template (cfg : config) : Option configValue :=
  cfg.template

/-! ### The write path -/

/-- The backing `.tagpr` file: `none` = absent; otherwise its base text
(the bootstrap template or whatever was there) together with the key/value
entries the store holds in it. -/
structure FS : Type where
  file : Option (String × List (String × String))
deriving DecidableEq, Repr

/-- Trace events emitted by the filesystem/store primitives. -/
inductive FsEvent : Type
  | removeAll
  | writeFile (content : String)
  | doWrite (key value : String)
deriving DecidableEq, Repr

/-- Fault model: which primitive calls fail, as a function of the
filesystem state they run in. -/
structure FaultModel : Type where
  removeFails : FS → Bool
  writeFails : FS → Bool
  doFails : FS → String → String → Bool

/-- `git config`-style update of the key/value entries. -/
def setKV : List (String × String) → String → String → List (String × String)
  | [], k, v => [(k, v)]
  | (k', v') :: rest, k, v =>
    if k' = k then (k, v) :: rest else (k', v') :: setKV rest k v

/-- Lookup in the key/value entries. -/
def lookupKV : List (String × String) → String → Option String
  | [], _ => none
  | (k', v') :: rest, k => if k' = k then some v' else lookupKV rest k

/-- `cfg.gitconfig.Get` reading from the backing file: an absent file or
absent key is the error (`none`) outcome. -/
def fsGet (fs : FS) (key : String) : Option String :=
  match fs.file with
  | none => none
  | some (_, kvs) => lookupKV kvs key

/-- The filesystem after a successful `gitconfig.Do(key, value)`. -/
def fsAfterDo (fs : FS) (key value : String) : FS :=
  ⟨match fs.file with
    | none => some ("", [(key, value)])
    | some (base, kvs) => some (base, setKV kvs key value)⟩

/-- `cfg.gitconfig.Do(key, value)`: on success the entry is written into
the backing file. -/
def gitconfigDo (fm : FaultModel) (fs : FS) (key value : String) :
    Except ConfigErr Unit × FS × List FsEvent :=
  if fm.doFails fs key value then (.error .doErr, fs, [.doWrite key value])
  else (.ok (), fsAfterDo fs key value, [.doWrite key value])

/-- `func (cfg *config) initializeFile() error`: `os.RemoveAll(cfg.conf)`
then `os.WriteFile(cfg.conf, defaultConfigContent, 0666)`. -/
def initializeFile (fm : FaultModel) (fs : FS) :
    Except ConfigErr Unit × FS × List FsEvent :=
  if fm.removeFails fs then (.error .removeErr, fs, [.removeAll])
  else
    let fs1 : FS := ⟨none⟩
    if fm.writeFails fs1 then
      (.error .writeErr, fs1, [.removeAll, .writeFile defaultConfigContent])
    else
      (.ok (), ⟨some (defaultConfigContent, [])⟩,
        [.removeAll, .writeFile defaultConfigContent])

/-- `func (cfg *config) set(key, value string) error`: materialize the file
if absent, encode `""` as the sentinel `"-"`, delegate to `gitconfig.Do`,
and on failure recreate the file and retry the write once. -/
def config.set (fm : FaultModel) (fs : FS) (key value : String) :
    Except ConfigErr Unit × FS × List FsEvent :=
  match (if fs.file.isNone then initializeFile fm fs else (.ok (), fs, [])) with
  | (.error e, fs1, tr0) => (.error e, fs1, tr0)
  | (.ok (), fs1, tr0) =>
    let value1 := if value = "" then "-" else value
    match gitconfigDo fm fs1 key value1 with
    | (.ok (), fs2, tr1) => (.ok (), fs2, tr0 ++ tr1)
    | (.error _, fs2, tr1) =>
      match initializeFile fm fs2 with
      | (.error e, fs3, tr2) => (.error e, fs3, tr0 ++ tr1 ++ tr2)
      | (.ok (), fs3, tr2) =>
        match gitconfigDo fm fs3 key value1 with
        | (r, fs4, tr3) => (r, fs4, tr0 ++ tr1 ++ tr2 ++ tr3)

/-- `func (cfg *config) SetRelaseBranch(br string) error` (the receiver and
filesystem are threaded explicitly; the in-memory field is assigned, with
`srcDetect` provenance, only after `set` succeeds). -/
def SetRelaseBranch (fm : FaultModel) (fs : FS) (cfg : config) (br : String) :
    Except ConfigErr Unit × FS × config × List FsEvent :=
  match config.set fm fs configReleaseBranch br with
  | (.error e, fs1, tr) => (.error e, fs1, cfg, tr)
  | (.ok (), fs1, tr) =>
    (.ok (), fs1, { cfg with releaseBranch := some ⟨br, .srcDetect⟩ }, tr)

/-- `func (cfg *config) SetVersionFile(fpath string) error`. -/
def SetVersionFile (fm : FaultModel) (fs : FS) (cfg : config) (fpath : String) :
    Except ConfigErr Unit × FS × config × List FsEvent :=
  match config.set fm fs configVersionFile fpath with
  | (.error e, fs1, tr) => (.error e, fs1, cfg, tr)
  | (.ok (), fs1, tr) =>
    (.ok (), fs1, { cfg with versionFile := some ⟨fpath, .srcDetect⟩ }, tr)

/-- `func (cfg *config) SetVPrefix(vPrefix bool) error`. -/
def SetVPrefix (fm : FaultModel) (fs : FS) (cfg : config) (vp : Bool) :
    Except ConfigErr Unit × FS × config × List FsEvent :=
  match config.set fm fs configVPrefix (FormatBool vp) with
  | (.error e, fs1, tr) => (.error e, fs1, cfg, tr)
  | (.ok (), fs1, tr) =>
    (.ok (), fs1, { cfg with vPrefix := some vp }, tr)

/-! ### Helper lemmas -/

theorem resolveValue_env (e : String) (s : Option String) (old : Option configValue)
    (h : e ≠ "") : resolveValue e s old = some ⟨e, .srcEnv⟩ := by
  simp [resolveValue, h]

theorem resolveValue_store (s : String) (old : Option configValue) :
    resolveValue "" (some s) old = some ⟨s, .srcConfigFile⟩ := by
  simp [resolveValue]

theorem resolveValue_miss (old : Option configValue) :
    resolveValue "" none old = old := by
  simp [resolveValue]

theorem resolveValue_idem (e : String) (s : Option String) (old : Option configValue) :
    resolveValue e s (resolveValue e s old) = resolveValue e s old := by
  unfold resolveValue
  by_cases h : e ≠ "" <;> cases s <;> simp [h]

theorem reloadVPrefix_idem (e : String) (s : Option Bool) (old vp : Option Bool)
    (h : reloadVPrefix e s old = .ok vp) : reloadVPrefix e s vp = .ok vp := by
  unfold reloadVPrefix at h ⊢
  by_cases he : e ≠ ""
  · simp only [if_pos he] at h ⊢
    cases hp : parseBool e
    · rw [hp] at h; simp at h
    · rw [hp] at h; exact h
  · simp only [if_neg he] at h ⊢
    cases s
    · rfl
    · exact h

/-- Characterization of `Reload` when the vPrefix block succeeds. -/
theorem Reload_ok (e : String → String) (g : String → Option String)
    (gb : String → Option Bool) (cfg : config) (vp : Option Bool)
    (h : reloadVPrefix (e envVPrefix) (gb configVPrefix) cfg.vPrefix = .ok vp) :
    Reload e g gb cfg =
      ({ releaseBranch :=
           resolveValue (e envReleaseBranch) (g configReleaseBranch) cfg.releaseBranch,
         versionFile :=
           resolveValue (e envVersionFile) (g configVersionFile) cfg.versionFile,
         command := resolveValue (e envCommand) (g configCommand) cfg.command,
         template := resolveValue (e envTemplate) (g configTemplate) cfg.template,
         vPrefix := vp }, none) := by
  unfold Reload
  simp only [h]

/-- If, for each string-setting key, either the environment variable is
non-empty or the two store-read functions agree on that key, then `Reload`
gives the same result with either store-read function. -/
theorem Reload_g_congr (e : String → String) (g g' : String → Option String)
    (gb : String → Option Bool) (cfg : config)
    (hrb : e envReleaseBranch ≠ "" ∨ g' configReleaseBranch = g configReleaseBranch)
    (hvf : e envVersionFile ≠ "" ∨ g' configVersionFile = g configVersionFile)
    (hc : e envCommand ≠ "" ∨ g' configCommand = g configCommand)
    (ht : e envTemplate ≠ "" ∨ g' configTemplate = g configTemplate) :
    Reload e g' gb cfg = Reload e g gb cfg := by
  have key : ∀ (ev : String) (k : String) (old : Option configValue),
      (ev ≠ "" ∨ g' k = g k) →
      resolveValue ev (g' k) old = resolveValue ev (g k) old := by
    intro ev k old hk
    rcases hk with hne | heq
    · rw [resolveValue_env _ _ _ hne, resolveValue_env _ _ _ hne]
    · rw [heq]
  unfold Reload
  simp only [key _ _ _ hrb, key _ _ _ hvf, key _ _ _ hc, key _ _ _ ht]

theorem lookupKV_setKV (kvs : List (String × String)) (k v : String) :
    lookupKV (setKV kvs k v) k = some v := by
  induction kvs with
  | nil => simp [setKV, lookupKV]
  | cons hd t ih =>
    obtain ⟨k', v'⟩ := hd
    by_cases hk : k' = k <;> simp [setKV, lookupKV, hk, ih]

theorem fsGet_fsAfterDo (fs : FS) (key value : String) :
    fsGet (fsAfterDo fs key value) key = some value := by
  unfold fsGet fsAfterDo
  cases h : fs.file with
  | none => simp [lookupKV]
  | some p => obtain ⟨base, kvs⟩ := p; simp [lookupKV_setKV]

/-- A successful `set` leaves the (sentinel-encoded) value readable in the
backing file under the written key. -/
theorem set_ok_get (fm : FaultModel) (fs : FS) (key value : String)
    (fs' : FS) (tr : List FsEvent)
    (h : config.set fm fs key value = (.ok (), fs', tr)) :
    fsGet fs' key = some (if value = "" then "-" else value) := by
  by_cases hn : fs.file.isNone
  · by_cases hr : fm.removeFails fs
    · simp [config.set, initializeFile, hn, hr] at h
    · by_cases hw : fm.writeFails ⟨none⟩
      · simp [config.set, initializeFile, hn, hr, hw] at h
      · by_cases hd : fm.doFails ⟨some (defaultConfigContent, [])⟩ key
            (if value = "" then "-" else value)
        · by_cases hr2 : fm.removeFails ⟨some (defaultConfigContent, [])⟩ <;>
            simp [config.set, initializeFile, gitconfigDo, hn, hr, hw, hd, hr2] at h
        · simp [config.set, initializeFile, gitconfigDo, hn, hr, hw, hd] at h
          obtain ⟨h1, -⟩ := h
          subst h1
          exact fsGet_fsAfterDo _ _ _
  · by_cases hd : fm.doFails fs key (if value = "" then "-" else value)
    · by_cases hr : fm.removeFails fs
      · simp [config.set, initializeFile, gitconfigDo, hn, hd, hr] at h
      · by_cases hw : fm.writeFails ⟨none⟩
        · simp [config.set, initializeFile, gitconfigDo, hn, hd, hr, hw] at h
        · by_cases hd2 : fm.doFails ⟨some (defaultConfigContent, [])⟩ key
              (if value = "" then "-" else value)
          · simp [config.set, initializeFile, gitconfigDo, hn, hd, hr, hw, hd2] at h
          · simp [config.set, initializeFile, gitconfigDo, hn, hd, hr, hw, hd2] at h
            obtain ⟨h1, -⟩ := h
            subst h1
            exact fsGet_fsAfterDo _ _ _
    · simp [config.set, gitconfigDo, hn, hd] at h
      obtain ⟨h1, -⟩ := h
      subst h1
      exact fsGet_fsAfterDo _ _ _

/-- Characterization of `Reload` when the vPrefix block fails: the error is
returned with only the first two fields updated. -/
theorem Reload_error (e : String → String) (g : String → Option String)
    (gb : String → Option Bool) (cfg : config) (err : ConfigErr)
    (h : reloadVPrefix (e envVPrefix) (gb configVPrefix) cfg.vPrefix = .error err) :
    Reload e g gb cfg =
      ({ cfg with
         releaseBranch :=
           resolveValue (e envReleaseBranch) (g configReleaseBranch) cfg.releaseBranch,
         versionFile :=
           resolveValue (e envVersionFile) (g configVersionFile) cfg.versionFile },
       some err) := by
  unfold Reload
  simp only [h]

/-! ### Claim theorems -/

/-- C6: on every resolved `configValue`, `String()` returns `""` exactly when
the raw stored text is the sentinel `"-"`, and otherwise returns the raw text
verbatim; `Empty()` holds exactly when `String()` is `""`. -/
theorem configValue_String_Empty_spec (cv : configValue) :
    (cv.value = "-" → cv.String = "") ∧
    (cv.value ≠ "-" → cv.String = cv.value) ∧
    (cv.Empty = true ↔ cv.String = "") := by
  refine ⟨fun h => ?_, fun h => ?_, ?_⟩
  · simp [configValue.String, h]
  · simp [configValue.String, h]
  · simp [configValue.Empty]

theorem configValue_String_Empty_spec_witness :
    (configValue.mk "-" .srcConfigFile).String = "" ∧
    (configValue.mk "v1.2.3" .srcEnv).String = "v1.2.3" ∧
    ((configValue.mk "-" .srcConfigFile).Empty = true ↔
      (configValue.mk "-" .srcConfigFile).String = "") :=
  ⟨(configValue_String_Empty_spec ⟨"-", .srcConfigFile⟩).1 (by decide),
   (configValue_String_Empty_spec ⟨"v1.2.3", .srcEnv⟩).2.1 (by decide),
   (configValue_String_Empty_spec ⟨"-", .srcConfigFile⟩).2.2⟩

/-- C1 counterexample: with every environment variable empty and every store
lookup failing, `Reload` returns no error yet a previously populated
`releaseBranch` field survives the call instead of being left null, so a
Resolved setting does not transition to Unresolved when the reload finds
nothing. -/
theorem reload_full_recompute_cex :
    (Reload (fun _ => "") (fun _ => none) (fun _ => none)
        ⟨some ⟨"main", .srcDetect⟩, none, none, none, none⟩).1.releaseBranch =
      some ⟨"main", .srcDetect⟩ ∧
    (Reload (fun _ => "") (fun _ => none) (fun _ => none)
        ⟨some ⟨"main", .srcDetect⟩, none, none, none, none⟩).1.releaseBranch ≠ none ∧
    (Reload (fun _ => "") (fun _ => none) (fun _ => none)
        ⟨some ⟨"main", .srcDetect⟩, none, none, none, none⟩).2 = none := by
  decide

/-- C1 (amended): `Reload` does not recompute a field from scratch when its
lookups find nothing: if on a call a setting's environment variable is empty
and its store lookup fails, the in-memory field keeps its previous contents,
so a previously Resolved setting stays Resolved with its stale value. -/
theorem reload_miss_retains_previous (e : String → String) (g : String → Option String)
    (gb : String → Option Bool) (cfg : config) :
    (e envReleaseBranch = "" → g configReleaseBranch = none →
      (Reload e g gb cfg).1.releaseBranch = cfg.releaseBranch) ∧
    (e envVersionFile = "" → g configVersionFile = none →
      (Reload e g gb cfg).1.versionFile = cfg.versionFile) ∧
    (e envVPrefix = "" → gb configVPrefix = none →
      (Reload e g gb cfg).1.vPrefix = cfg.vPrefix) ∧
    (e envCommand = "" → g configCommand = none →
      (Reload e g gb cfg).1.command = cfg.command) ∧
    (e envTemplate = "" → g configTemplate = none →
      (Reload e g gb cfg).1.template = cfg.template) := by
  cases h : reloadVPrefix (e envVPrefix) (gb configVPrefix) cfg.vPrefix with
  | error err =>
    rw [Reload_error e g gb cfg err h]
    refine ⟨fun h1 h2 => ?_, fun h1 h2 => ?_, fun h1 h2 => ?_,
      fun h1 h2 => ?_, fun h1 h2 => ?_⟩ <;>
      simp [h1, h2, resolveValue_miss]
  | ok vp =>
    rw [Reload_ok e g gb cfg vp h]
    refine ⟨fun h1 h2 => ?_, fun h1 h2 => ?_, fun h1 h2 => ?_,
      fun h1 h2 => ?_, fun h1 h2 => ?_⟩
    · simp [h1, h2, resolveValue_miss]
    · simp [h1, h2, resolveValue_miss]
    · rw [h1, h2] at h
      simp [reloadVPrefix] at h
      simp [h]
    · simp [h1, h2, resolveValue_miss]
    · simp [h1, h2, resolveValue_miss]

theorem reload_miss_retains_previous_witness :
    (Reload (fun _ => "") (fun _ => none) (fun _ => none)
        ⟨some ⟨"develop", .srcConfigFile⟩, none, none, none, some true⟩).1.releaseBranch =
      some ⟨"develop", .srcConfigFile⟩ :=
  (reload_miss_retains_previous (fun _ => "") (fun _ => none) (fun _ => none)
      ⟨some ⟨"develop", .srcConfigFile⟩, none, none, none, some true⟩).1 rfl rfl

/-- C9: `Reload` is idempotent under fixed external inputs: with the same
environment and store lookup functions, reloading the state produced by a
`Reload` call reproduces exactly that state and the same returned error. -/
theorem reload_idempotent (e : String → String) (g : String → Option String)
    (gb : String → Option Bool) (cfg : config) :
    Reload e g gb (Reload e g gb cfg).1 = Reload e g gb cfg := by
  cases h : reloadVPrefix (e envVPrefix) (gb configVPrefix) cfg.vPrefix with
  | error err =>
    rw [Reload_error e g gb cfg err h]
    have h2 : reloadVPrefix (e envVPrefix) (gb configVPrefix)
        ({ cfg with
           releaseBranch :=
             resolveValue (e envReleaseBranch) (g configReleaseBranch) cfg.releaseBranch,
           versionFile :=
             resolveValue (e envVersionFile) (g configVersionFile) cfg.versionFile } :
          config).vPrefix = .error err := h
    rw [Reload_error e g gb _ err h2]
    simp [resolveValue_idem]
  | ok vp =>
    rw [Reload_ok e g gb cfg vp h]
    have h2 : reloadVPrefix (e envVPrefix) (gb configVPrefix)
        ({ releaseBranch :=
             resolveValue (e envReleaseBranch) (g configReleaseBranch) cfg.releaseBranch,
           versionFile :=
             resolveValue (e envVersionFile) (g configVersionFile) cfg.versionFile,
           command := resolveValue (e envCommand) (g configCommand) cfg.command,
           template := resolveValue (e envTemplate) (g configTemplate) cfg.template,
           vPrefix := vp } : config).vPrefix = .ok vp :=
      reloadVPrefix_idem _ _ _ _ h
    rw [Reload_ok e g gb _ vp h2]
    simp [resolveValue_idem]

/-- C2: for every string setting whose environment variable reads non-empty,
`Reload` resolves it to exactly that string with source `srcEnv` (for the
command/template settings, on a reload that returns no error; a failing
reload leaves them untouched, which is claim C3's subject), and the store is
not queried for that key: the whole result is unchanged under any
modification of the store function at that key. -/
theorem reload_env_precedence (e : String → String) (g : String → Option String)
    (gb : String → Option Bool) (cfg : config) :
    (e envReleaseBranch ≠ "" →
      (Reload e g gb cfg).1.releaseBranch = some ⟨e envReleaseBranch, .srcEnv⟩ ∧
      ∀ g' : String → Option String, (∀ k, k ≠ configReleaseBranch → g' k = g k) →
        Reload e g' gb cfg = Reload e g gb cfg) ∧
    (e envVersionFile ≠ "" →
      (Reload e g gb cfg).1.versionFile = some ⟨e envVersionFile, .srcEnv⟩ ∧
      ∀ g' : String → Option String, (∀ k, k ≠ configVersionFile → g' k = g k) →
        Reload e g' gb cfg = Reload e g gb cfg) ∧
    (e envCommand ≠ "" →
      ((Reload e g gb cfg).2 = none →
        (Reload e g gb cfg).1.command = some ⟨e envCommand, .srcEnv⟩) ∧
      ∀ g' : String → Option String, (∀ k, k ≠ configCommand → g' k = g k) →
        Reload e g' gb cfg = Reload e g gb cfg) ∧
    (e envTemplate ≠ "" →
      ((Reload e g gb cfg).2 = none →
        (Reload e g gb cfg).1.template = some ⟨e envTemplate, .srcEnv⟩) ∧
      ∀ g' : String → Option String, (∀ k, k ≠ configTemplate → g' k = g k) →
        Reload e g' gb cfg = Reload e g gb cfg) := by
  refine ⟨fun hne => ⟨?_, fun g' hag => ?_⟩, fun hne => ⟨?_, fun g' hag => ?_⟩,
    fun hne => ⟨fun hok => ?_, fun g' hag => ?_⟩,
    fun hne => ⟨fun hok => ?_, fun g' hag => ?_⟩⟩
  · cases h : reloadVPrefix (e envVPrefix) (gb configVPrefix) cfg.vPrefix with
    | error err => rw [Reload_error e g gb cfg err h]; simp [resolveValue_env _ _ _ hne]
    | ok vp => rw [Reload_ok e g gb cfg vp h]; simp [resolveValue_env _ _ _ hne]
  · exact Reload_g_congr e g g' gb cfg (Or.inl hne)
      (Or.inr (hag configVersionFile (by decide)))
      (Or.inr (hag configCommand (by decide)))
      (Or.inr (hag configTemplate (by decide)))
  · cases h : reloadVPrefix (e envVPrefix) (gb configVPrefix) cfg.vPrefix with
    | error err => rw [Reload_error e g gb cfg err h]; simp [resolveValue_env _ _ _ hne]
    | ok vp => rw [Reload_ok e g gb cfg vp h]; simp [resolveValue_env _ _ _ hne]
  · exact Reload_g_congr e g g' gb cfg
      (Or.inr (hag configReleaseBranch (by decide)))
      (Or.inl hne)
      (Or.inr (hag configCommand (by decide)))
      (Or.inr (hag configTemplate (by decide)))
  · cases h : reloadVPrefix (e envVPrefix) (gb configVPrefix) cfg.vPrefix with
    | error err => rw [Reload_error e g gb cfg err h] at hok; simp at hok
    | ok vp => rw [Reload_ok e g gb cfg vp h]; simp [resolveValue_env _ _ _ hne]
  · exact Reload_g_congr e g g' gb cfg
      (Or.inr (hag configReleaseBranch (by decide)))
      (Or.inr (hag configVersionFile (by decide)))
      (Or.inl hne)
      (Or.inr (hag configTemplate (by decide)))
  · cases h : reloadVPrefix (e envVPrefix) (gb configVPrefix) cfg.vPrefix with
    | error err => rw [Reload_error e g gb cfg err h] at hok; simp at hok
    | ok vp => rw [Reload_ok e g gb cfg vp h]; simp [resolveValue_env _ _ _ hne]
  · exact Reload_g_congr e g g' gb cfg
      (Or.inr (hag configReleaseBranch (by decide)))
      (Or.inr (hag configVersionFile (by decide)))
      (Or.inr (hag configCommand (by decide)))
      (Or.inl hne)

theorem reload_env_precedence_witness :
    (Reload (fun k => if k = envReleaseBranch then "main" else "")
        (fun _ => some "develop") (fun _ => none)
        ⟨none, none, none, none, none⟩).1.releaseBranch =
      some ⟨"main", .srcEnv⟩ :=
  ((reload_env_precedence (fun k => if k = envReleaseBranch then "main" else "")
      (fun _ => some "develop") (fun _ => none)
      ⟨none, none, none, none, none⟩).1 (by decide)).1

/-- C3: a non-empty `TAGPR_VPREFIX` that does not parse as a boolean makes
`Reload` fail with the parse error immediately and propagate it: the
command and template fields (lexically after the boolean check) and the
boolean field itself are untouched, the boolean's store key is never
consulted (the result is independent of the store-bool function), while
the release-branch and version-file fields have already been overwritten
according to their own lookups. -/
theorem reload_malformed_bool_env (e : String → String) (g : String → Option String)
    (gb : String → Option Bool) (cfg : config)
    (hne : e envVPrefix ≠ "") (hp : parseBool (e envVPrefix) = none) :
    (Reload e g gb cfg).2 = some .invalidEnvironmentValue ∧
    (Reload e g gb cfg).1.command = cfg.command ∧
    (Reload e g gb cfg).1.template = cfg.template ∧
    (Reload e g gb cfg).1.vPrefix = cfg.vPrefix ∧
    (Reload e g gb cfg).1.releaseBranch =
      resolveValue (e envReleaseBranch) (g configReleaseBranch) cfg.releaseBranch ∧
    (Reload e g gb cfg).1.versionFile =
      resolveValue (e envVersionFile) (g configVersionFile) cfg.versionFile ∧
    ∀ gb' : String → Option Bool, Reload e g gb' cfg = Reload e g gb cfg := by
  have h : ∀ gb0 : String → Option Bool,
      reloadVPrefix (e envVPrefix) (gb0 configVPrefix) cfg.vPrefix =
        .error .invalidEnvironmentValue := by
    intro gb0
    unfold reloadVPrefix
    simp [hne, hp]
  rw [Reload_error e g gb cfg _ (h gb)]
  refine ⟨rfl, rfl, rfl, rfl, rfl, rfl, fun gb' => ?_⟩
  rw [Reload_error e g gb' cfg _ (h gb')]

theorem reload_malformed_bool_env_witness :
    (Reload (fun k => if k = envVPrefix then "notabool" else "")
        (fun _ => none) (fun _ => none)
        ⟨none, none, none, none, none⟩).2 = some .invalidEnvironmentValue :=
  (reload_malformed_bool_env (fun k => if k = envVPrefix then "notabool" else "")
      (fun _ => none) (fun _ => none) ⟨none, none, none, none, none⟩
      (by decide) (by decide)).1

/-- C7: boolean tri-state: with an empty environment variable and no store
entry for the v-prefix key, a null v-prefix field stays null (and the reload
succeeds), which is distinct from an explicitly stored `false`; after a
successful `SetVPrefix false`, the in-memory boolean is exactly
`some false`, not null. -/
theorem vPrefix_tristate (e : String → String) (g : String → Option String)
    (gb : String → Option Bool) (cfg : config) (fm : FaultModel) (fs : FS) :
    (e envVPrefix = "" → gb configVPrefix = none → cfg.vPrefix = none →
      (Reload e g gb cfg).1.vPrefix = none ∧ (Reload e g gb cfg).2 = none) ∧
    (∀ fs' cfg' tr, SetVPrefix fm fs cfg false = (.ok (), fs', cfg', tr) →
      cfg'.vPrefix = some false) := by
  constructor
  · intro h1 h2 h3
    have h : reloadVPrefix (e envVPrefix) (gb configVPrefix) cfg.vPrefix = .ok none := by
      rw [h1, h2, h3]; rfl
    rw [Reload_ok e g gb cfg none h]
    exact ⟨rfl, rfl⟩
  · intro fs' cfg' tr hset
    unfold SetVPrefix at hset
    rcases hs : config.set fm fs configVPrefix (FormatBool false) with ⟨r, fs1, tr1⟩
    rw [hs] at hset
    cases r with
    | error err => simp at hset
    | ok u =>
      cases u
      simp only [Prod.mk.injEq] at hset
      obtain ⟨-, -, h2, -⟩ := hset
      rw [← h2]

theorem vPrefix_tristate_witness :
    (Reload (fun _ => "") (fun _ => none) (fun _ => none)
        ⟨none, none, none, none, none⟩).1.vPrefix = none ∧
    (config.mk none none none none (some false)).vPrefix = some false :=
  ⟨((vPrefix_tristate (fun _ => "") (fun _ => none) (fun _ => none)
      ⟨none, none, none, none, none⟩
      ⟨fun _ => false, fun _ => false, fun _ _ _ => false⟩ ⟨some ("", [])⟩).1
      rfl rfl rfl).1,
   (vPrefix_tristate (fun _ => "") (fun _ => none) (fun _ => none)
      ⟨none, none, none, none, none⟩
      ⟨fun _ => false, fun _ => false, fun _ _ _ => false⟩ ⟨some ("", [])⟩).2
      ⟨some ("", [("tagpr.vPrefix", "false")])⟩
      ⟨none, none, none, none, some false⟩
      [.doWrite "tagpr.vPrefix" "false"] rfl⟩

/-- C10: setter atomicity: each of `SetRelaseBranch`, `SetVersionFile`,
`SetVPrefix` leaves its in-memory field exactly as it was when the internal
write path fails, and assigns it (with `srcDetect` provenance, the
programmatic source) only when the persistence step succeeds. -/
theorem setters_atomic (fm : FaultModel) (fs : FS) (cfg : config) :
    (∀ br r fs' cfg' tr, SetRelaseBranch fm fs cfg br = (r, fs', cfg', tr) →
      ((∃ err, r = .error err) → cfg' = cfg) ∧
      (r = .ok () → cfg' = { cfg with releaseBranch := some ⟨br, .srcDetect⟩ })) ∧
    (∀ fpath r fs' cfg' tr, SetVersionFile fm fs cfg fpath = (r, fs', cfg', tr) →
      ((∃ err, r = .error err) → cfg' = cfg) ∧
      (r = .ok () → cfg' = { cfg with versionFile := some ⟨fpath, .srcDetect⟩ })) ∧
    (∀ vp r fs' cfg' tr, SetVPrefix fm fs cfg vp = (r, fs', cfg', tr) →
      ((∃ err, r = .error err) → cfg' = cfg) ∧
      (r = .ok () → cfg' = { cfg with vPrefix := some vp })) := by
  refine ⟨fun br r fs' cfg' tr hst => ?_, fun fpath r fs' cfg' tr hst => ?_,
    fun vp r fs' cfg' tr hst => ?_⟩
  · unfold SetRelaseBranch at hst
    rcases hs : config.set fm fs configReleaseBranch br with ⟨r0, fs1, tr1⟩
    rw [hs] at hst
    cases r0 with
    | error err =>
      simp only [Prod.mk.injEq] at hst
      obtain ⟨hr, -, hc, -⟩ := hst
      refine ⟨fun _ => hc.symm, fun hok => ?_⟩
      rw [← hr] at hok
      simp at hok
    | ok u =>
      cases u
      simp only [Prod.mk.injEq] at hst
      obtain ⟨hr, -, hc, -⟩ := hst
      refine ⟨?_, fun _ => hc.symm⟩
      rintro ⟨err, heq⟩
      rw [← hr] at heq
      simp at heq
  · unfold SetVersionFile at hst
    rcases hs : config.set fm fs configVersionFile fpath with ⟨r0, fs1, tr1⟩
    rw [hs] at hst
    cases r0 with
    | error err =>
      simp only [Prod.mk.injEq] at hst
      obtain ⟨hr, -, hc, -⟩ := hst
      refine ⟨fun _ => hc.symm, fun hok => ?_⟩
      rw [← hr] at hok
      simp at hok
    | ok u =>
      cases u
      simp only [Prod.mk.injEq] at hst
      obtain ⟨hr, -, hc, -⟩ := hst
      refine ⟨?_, fun _ => hc.symm⟩
      rintro ⟨err, heq⟩
      rw [← hr] at heq
      simp at heq
  · unfold SetVPrefix at hst
    rcases hs : config.set fm fs configVPrefix (FormatBool vp) with ⟨r0, fs1, tr1⟩
    rw [hs] at hst
    cases r0 with
    | error err =>
      simp only [Prod.mk.injEq] at hst
      obtain ⟨hr, -, hc, -⟩ := hst
      refine ⟨fun _ => hc.symm, fun hok => ?_⟩
      rw [← hr] at hok
      simp at hok
    | ok u =>
      cases u
      simp only [Prod.mk.injEq] at hst
      obtain ⟨hr, -, hc, -⟩ := hst
      refine ⟨?_, fun _ => hc.symm⟩
      rintro ⟨err, heq⟩
      rw [← hr] at heq
      simp at heq

theorem setters_atomic_witness :
    (⟨none, none, none, none, none⟩ : config) = ⟨none, none, none, none, none⟩ :=
  ((setters_atomic ⟨fun _ => false, fun _ => false, fun _ _ _ => true⟩
      ⟨some ("", [])⟩ ⟨none, none, none, none, none⟩).1 "main" (.error .doErr)
      ⟨some (defaultConfigContent, [])⟩ ⟨none, none, none, none, none⟩
      [.doWrite "tagpr.releaseBranch" "main", .removeAll,
       .writeFile defaultConfigContent, .doWrite "tagpr.releaseBranch" "main"]
      rfl).1 ⟨.doErr, rfl⟩

/-- Every `doWrite` event traced by `config.set` carries the written key and
the sentinel-encoded value. -/
theorem set_trace_doWrite (fm : FaultModel) (fs : FS) (key value k v : String)
    (h : FsEvent.doWrite k v ∈ (config.set fm fs key value).2.2) :
    k = key ∧ v = (if value = "" then "-" else value) := by
  by_cases hn : fs.file.isNone
  · by_cases hr : fm.removeFails fs
    · simp [config.set, initializeFile, hn, hr] at h
    · by_cases hw : fm.writeFails ⟨none⟩
      · simp [config.set, initializeFile, hn, hr, hw] at h
      · by_cases hd : fm.doFails ⟨some (defaultConfigContent, [])⟩ key
            (if value = "" then "-" else value)
        · by_cases hr2 : fm.removeFails ⟨some (defaultConfigContent, [])⟩ <;>
            simp [config.set, initializeFile, gitconfigDo, hn, hr, hw, hd, hr2] at h <;>
            tauto
        · simp [config.set, initializeFile, gitconfigDo, hn, hr, hw, hd] at h
          tauto
  · by_cases hd : fm.doFails fs key (if value = "" then "-" else value)
    · by_cases hr : fm.removeFails fs
      · simp [config.set, initializeFile, gitconfigDo, hn, hd, hr] at h
        tauto
      · by_cases hw : fm.writeFails ⟨none⟩
        · simp [config.set, initializeFile, gitconfigDo, hn, hd, hr, hw] at h
          tauto
        · by_cases hd2 : fm.doFails ⟨some (defaultConfigContent, [])⟩ key
              (if value = "" then "-" else value) <;>
            simp [config.set, initializeFile, gitconfigDo, hn, hd, hr, hw, hd2] at h <;>
            tauto
    · simp [config.set, gitconfigDo, hn, hd] at h
      tauto

/-- C8: every value delegated to the store write primitive is a non-empty
string: `set` maps exactly the empty input to the sentinel `"-"` before
writing, and the boolean setter always delegates the canonical
true/false text, which is never sentinel-encoded and never empty. -/
theorem store_writes_nonempty (fm : FaultModel) (fs : FS) (cfg : config) :
    (∀ key value k v, FsEvent.doWrite k v ∈ (config.set fm fs key value).2.2 →
      v ≠ "" ∧ v = (if value = "" then "-" else value) ∧ (value = "" → v = "-")) ∧
    (∀ vp : Bool, ∀ k v, FsEvent.doWrite k v ∈ (SetVPrefix fm fs cfg vp).2.2.2 →
      v = FormatBool vp ∧ v ≠ "-" ∧ v ≠ "") := by
  constructor
  · intro key value k v h
    obtain ⟨-, hv⟩ := set_trace_doWrite fm fs key value k v h
    subst hv
    by_cases hval : value = "" <;> simp [hval]
  · intro vp k v h
    have h2 : FsEvent.doWrite k v ∈ (config.set fm fs configVPrefix (FormatBool vp)).2.2 := by
      unfold SetVPrefix at h
      rcases hs : config.set fm fs configVPrefix (FormatBool vp) with ⟨r, fs1, tr1⟩
      rw [hs] at h
      cases r with
      | error err => simpa using h
      | ok u => cases u; simpa using h
    obtain ⟨-, hv⟩ := set_trace_doWrite fm fs configVPrefix (FormatBool vp) k v h2
    subst hv
    cases vp <;> simp [FormatBool]

theorem store_writes_nonempty_witness :
    ¬("-" : String) = "" ∧ ("-" : String) = (if ("" : String) = "" then "-" else "") ∧
    (("" : String) = "" → ("-" : String) = "-") :=
  (store_writes_nonempty ⟨fun _ => false, fun _ => false, fun _ _ _ => false⟩
      ⟨some ("", [])⟩ ⟨none, none, none, none, none⟩).1
    "tagpr.versionFile" "" "tagpr.versionFile" "-" (by simp [config.set, gitconfigDo])

/-- C5: null-sentinel round-trip: a successful `SetVersionFile("")` leaves
the literal text `"-"` in the store under the version-file key, and a
subsequent `Reload` with every environment variable empty and the store
reading from that file resolves the version file to the raw text `"-"` with
store provenance, whose `String()` is `""` and whose `Empty()` is true. -/
theorem null_sentinel_roundtrip (fm : FaultModel) (fs : FS) (cfg : config)
    (e : String → String) (gb : String → Option Bool) (he : ∀ k, e k = "")
    (fs' : FS) (cfg' : config) (tr : List FsEvent)
    (hset : SetVersionFile fm fs cfg "" = (.ok (), fs', cfg', tr)) :
    fsGet fs' configVersionFile = some "-" ∧
    ∃ cv : configValue,
      (Reload e (fsGet fs') gb cfg').1.versionFile = some cv ∧
      cv.String = "" ∧ cv.Empty = true ∧ cv.value = "-" ∧ cv.source = .srcConfigFile := by
  have hset0 : config.set fm fs configVersionFile "" = (.ok (), fs', tr) := by
    unfold SetVersionFile at hset
    rcases hs : config.set fm fs configVersionFile "" with ⟨r, fs1, tr1⟩
    rw [hs] at hset
    cases r with
    | error err => simp at hset
    | ok u =>
      cases u
      simp only [Prod.mk.injEq] at hset
      obtain ⟨-, h1, -, h3⟩ := hset
      rw [h1, h3]
  have hget : fsGet fs' configVersionFile = some "-" := by
    have h := set_ok_get fm fs configVersionFile "" fs' tr hset0
    simpa using h
  have hvf : (Reload e (fsGet fs') gb cfg').1.versionFile = some ⟨"-", .srcConfigFile⟩ := by
    cases hgb : gb configVPrefix with
    | none =>
      have h : reloadVPrefix (e envVPrefix) (gb configVPrefix) cfg'.vPrefix =
          .ok cfg'.vPrefix := by
        rw [he envVPrefix, hgb]; rfl
      rw [Reload_ok e (fsGet fs') gb cfg' _ h]
      simp [he envVersionFile, hget, resolveValue_store]
    | some b =>
      have h : reloadVPrefix (e envVPrefix) (gb configVPrefix) cfg'.vPrefix =
          .ok (some b) := by
        rw [he envVPrefix, hgb]; rfl
      rw [Reload_ok e (fsGet fs') gb cfg' _ h]
      simp [he envVersionFile, hget, resolveValue_store]
  exact ⟨hget, ⟨"-", .srcConfigFile⟩, hvf, by decide, by decide, rfl, rfl⟩

theorem null_sentinel_roundtrip_witness :
    fsGet ⟨some ("", [("tagpr.versionFile", "-")])⟩ configVersionFile = some "-" :=
  (null_sentinel_roundtrip ⟨fun _ => false, fun _ => false, fun _ _ _ => false⟩
      ⟨some ("", [])⟩ ⟨none, none, none, none, none⟩ (fun _ => "") (fun _ => none)
      (fun _ => rfl) ⟨some ("", [("tagpr.versionFile", "-")])⟩
      ⟨none, some ⟨"", .srcDetect⟩, none, none, none⟩
      [.doWrite "tagpr.versionFile" "-"] rfl).1

/-- C4: write-failure self-repair, for a present backing file: a successful
first delegated write performs no recreation and no second write; on a first
write failure the backing file is destructively recreated with the fixed
default content and the write is retried exactly once, a failure of the
retried write being returned to the caller; a failure while recreating the
file (removing or rewriting it) is returned immediately with no retry. -/
theorem set_self_repair (fm : FaultModel) (fs : FS) (key value v1 : String)
    (hex : fs.file.isNone = false)
    (hv1 : v1 = if value = "" then "-" else value) :
    (fm.doFails fs key v1 = false →
      config.set fm fs key value = (.ok (), fsAfterDo fs key v1, [.doWrite key v1])) ∧
    (fm.doFails fs key v1 = true → fm.removeFails fs = true →
      config.set fm fs key value =
        (.error .removeErr, fs, [.doWrite key v1, .removeAll])) ∧
    (fm.doFails fs key v1 = true → fm.removeFails fs = false →
      fm.writeFails ⟨none⟩ = true →
      config.set fm fs key value =
        (.error .writeErr, ⟨none⟩,
          [.doWrite key v1, .removeAll, .writeFile defaultConfigContent])) ∧
    (fm.doFails fs key v1 = true → fm.removeFails fs = false →
      fm.writeFails ⟨none⟩ = false →
      fm.doFails ⟨some (defaultConfigContent, [])⟩ key v1 = true →
      config.set fm fs key value =
        (.error .doErr, ⟨some (defaultConfigContent, [])⟩,
          [.doWrite key v1, .removeAll, .writeFile defaultConfigContent,
           .doWrite key v1])) ∧
    (fm.doFails fs key v1 = true → fm.removeFails fs = false →
      fm.writeFails ⟨none⟩ = false →
      fm.doFails ⟨some (defaultConfigContent, [])⟩ key v1 = false →
      config.set fm fs key value =
        (.ok (), fsAfterDo ⟨some (defaultConfigContent, [])⟩ key v1,
          [.doWrite key v1, .removeAll, .writeFile defaultConfigContent,
           .doWrite key v1])) := by
  subst hv1
  refine ⟨fun hd => ?_, fun hd hr => ?_, fun hd hr hw => ?_,
    fun hd hr hw hd2 => ?_, fun hd hr hw hd2 => ?_⟩
  · simp [config.set, gitconfigDo, hex, hd]
  · simp [config.set, gitconfigDo, initializeFile, hex, hd, hr]
  · simp [config.set, gitconfigDo, initializeFile, hex, hd, hr, hw]
  · simp [config.set, gitconfigDo, initializeFile, hex, hd, hr, hw, hd2]
  · simp [config.set, gitconfigDo, initializeFile, hex, hd, hr, hw, hd2]

theorem set_self_repair_witness :
    config.set ⟨fun _ => false, fun _ => false, fun _ _ _ => false⟩
        ⟨some ("", [])⟩ "tagpr.command" "make release" =
      (.ok (), fsAfterDo ⟨some ("", [])⟩ "tagpr.command" "make release",
        [.doWrite "tagpr.command" "make release"]) :=
  (set_self_repair ⟨fun _ => false, fun _ => false, fun _ _ _ => false⟩
      ⟨some ("", [])⟩ "tagpr.command" "make release" "make release"
      rfl (by decide)).1 rfl
